import Mathlib

/-!
# AWS SDK example programs: effect-trace embedding

The two example programs `get_template.cpp` (SES) and
`remove_tag_from_certificate.cpp` (ACM) are embedded as pure functions that
return their C++ result together with the list of observable effects they
perform, in program order.  The vendor SDK is not part of the repository: the
client method is a parameter of every definition, as are the values of a
default-constructed `Aws::SDKOptions` and `Aws::Client::ClientConfiguration`.
-/

namespace Aws

/-- The character written by `std::endl`. -/
def newline : Char := Char.ofNat 10

/-- The text `std::endl` appends to a stream. -/
def endl : String := String.singleton newline

namespace Utils.Logging

/-- The SDK's log levels (`Aws::Utils::Logging::LogLevel`). -/
inductive LogLevel where
  | Off
  | Fatal
  | Error
  | Warn
  | Info
  | Debug
  | Trace
deriving DecidableEq, Repr

end Utils.Logging

/-- The part of `Aws::SDKOptions` the programs touch: `loggingOptions.logLevel`. -/
structure SDKOptions where
  logLevel : Utils.Logging.LogLevel
deriving DecidableEq, Repr

namespace Client

/-- The client configuration is handed to the SDK client untouched; the only
field the sources mention is `region`. -/
structure ClientConfiguration where
  region : String
deriving DecidableEq, Repr

/-- The SDK error object: `GetMessage()` is all the programs read. -/
structure AWSError where
  message : String
deriving DecidableEq, Repr

/-- Accessor `AWSError::GetMessage`. -/
def AWSError.GetMessage (e : AWSError) : String := e.message

end Client

namespace Utils

/-- The SDK's `Outcome<R, E>`: a success flag, a result and an error. -/
structure Outcome (R : Type) where
  success : Bool
  result : R
  error : Client.AWSError

/-- Accessor `Outcome::IsSuccess`. -/
def Outcome.IsSuccess {R : Type} (o : Outcome R) : Bool := o.success

/-- Accessor `Outcome::GetError`. -/
def Outcome.GetError {R : Type} (o : Outcome R) : Client.AWSError := o.error

end Utils

namespace SES.Model

/-- The request of `GetTemplate`: one optional field, unset after construction. -/
structure GetTemplateRequest where
  templateName : Option String
deriving DecidableEq, Repr

/-- A default-constructed request: nothing set. -/
def GetTemplateRequest.new : GetTemplateRequest := ⟨none⟩

/-- Setter `SetTemplateName`. -/
def GetTemplateRequest.SetTemplateName (r : GetTemplateRequest) (value : String) :
    GetTemplateRequest := { r with templateName := some value }

end SES.Model

namespace ACM.Model

/-- An ACM tag: optional key, optional value, both unset after construction. -/
structure Tag where
  key : Option String
  value : Option String
deriving DecidableEq, Repr

/-- A default-constructed tag. -/
def Tag.new : Tag := ⟨none, none⟩

/-- Setter `SetKey`: only the key changes. -/
def Tag.SetKey (t : Tag) (k : String) : Tag := { t with key := some k }

/-- The request of `RemoveTagsFromCertificate`. -/
structure RemoveTagsFromCertificateRequest where
  certificateArn : Option String
  tags : Option (List Tag)
deriving DecidableEq, Repr

/-- A default-constructed request: nothing set. -/
def RemoveTagsFromCertificateRequest.new : RemoveTagsFromCertificateRequest := ⟨none, none⟩

/-- Fluent setter `WithCertificateArn`. -/
def RemoveTagsFromCertificateRequest.WithCertificateArn
    (r : RemoveTagsFromCertificateRequest) (arn : String) :
    RemoveTagsFromCertificateRequest := { r with certificateArn := some arn }

/-- Fluent setter `WithTags`. -/
def RemoveTagsFromCertificateRequest.WithTags
    (r : RemoveTagsFromCertificateRequest) (tags : List Tag) :
    RemoveTagsFromCertificateRequest := { r with tags := some tags }

end ACM.Model

/-- Observable effects of a run, in program order.  Every operand of `<<` on
`std::cout` or `std::cerr` is one write. -/
inductive Effect where
  | InitAPI (options : SDKOptions)
  | ShutdownAPI (options : SDKOptions)
  | GetTemplate (config : Client.ClientConfiguration)
      (request : SES.Model.GetTemplateRequest)
  | RemoveTagsFromCertificate (config : Client.ClientConfiguration)
      (request : ACM.Model.RemoveTagsFromCertificateRequest)
  | cout (text : String)
  | cerr (text : String)
deriving DecidableEq, Repr

/-- Is the effect a remote client call? -/
def Effect.isCall : Effect → Bool
  | .GetTemplate _ _ => true
  | .RemoveTagsFromCertificate _ _ => true
  | _ => false

/-- Is the effect `Aws::InitAPI`? -/
def Effect.isInit : Effect → Bool
  | .InitAPI _ => true
  | _ => false

/-- Is the effect `Aws::ShutdownAPI`? -/
def Effect.isShutdown : Effect → Bool
  | .ShutdownAPI _ => true
  | _ => false

/-- The remote client calls of a trace, in order. -/
def clientCalls (t : List Effect) : List Effect := t.filter Effect.isCall

/-- Everything written to standard output, concatenated. -/
def coutText : List Effect → String
  | [] => ""
  | .cout s :: es => s ++ coutText es
  | _ :: es => coutText es

/-- Everything written to standard error, concatenated. -/
def cerrText : List Effect → String
  | [] => ""
  | .cerr s :: es => s ++ cerrText es
  | _ :: es => cerrText es

/-- The text ends in the newline character. -/
def endsWithNewline (s : String) : Bool := s.data.getLast? == some newline

/-- A text is exactly one newline-terminated line: it ends in the newline
character and holds no other newline. -/
def isOneLine (s : String) : Bool := endsWithNewline s && s.data.count newline == 1

/-- Contiguous substring. -/
def containsText (text part : String) : Prop :=
  ∃ before after : String, text = before ++ part ++ after

/-- The trace is bracketed: it starts with one `InitAPI`, ends with one
`ShutdownAPI` called with the same options, has neither of the two in between,
and has exactly one client call in between. -/
def Bracketed (t : List Effect) : Prop :=
  ∃ (o : SDKOptions) (mid : List Effect),
    t = [Effect.InitAPI o] ++ mid ++ [Effect.ShutdownAPI o] ∧
    (∀ e ∈ mid, e.isInit = false ∧ e.isShutdown = false) ∧
    (clientCalls mid).length = 1

/-- The trace uses the SDK nowhere: no `InitAPI`, no `ShutdownAPI`, no client call. -/
def NoSdkUse (t : List Effect) : Prop :=
  ∀ e ∈ t, e.isInit = false ∧ e.isShutdown = false ∧ e.isCall = false

/-- What a default-constructed `Aws::SDKOptions` and
`Aws::Client::ClientConfiguration` hold: fixed by the SDK and the ambient
environment, not by the programs. -/
structure Defaults where
  options : SDKOptions
  clientConfig : Client.ClientConfiguration

end Aws

open Aws Aws.Client Aws.Utils

namespace AwsDoc.SES

open Aws.SES.Model

/-- The client method `SESClient::GetTemplate` of a client built from a
configuration. -/
abbrev SESClient (R : Type) := ClientConfiguration → GetTemplateRequest → Outcome R

/-- `AwsDoc::SES::getTemplate` (get_template.cpp, lines 31-54). -/
def getTemplate {R : Type} (sesClient : SESClient R) (templateName : String)
    (clientConfiguration : ClientConfiguration) : Bool × List Effect :=
  let getTemplateRequest := GetTemplateRequest.new
  let getTemplateRequest := getTemplateRequest.SetTemplateName templateName
  let outcome := sesClient clientConfiguration getTemplateRequest
  let called := [Effect.GetTemplate clientConfiguration getTemplateRequest]
  if outcome.IsSuccess then
    (outcome.IsSuccess,
      called ++ [Effect.cout "Successfully got template.", Effect.cout endl])
  else
    (outcome.IsSuccess,
      called ++ [Effect.cerr "Error getting template. ",
        Effect.cerr outcome.GetError.GetMessage, Effect.cerr endl])

/-- The SES program `main` (get_template.cpp, lines 69-91); `argc` is the
length of `argv`. -/
def main {R : Type} (d : Defaults) (sesClient : SESClient R) (argv : List String) :
    Int × List Effect :=
  let argc := argv.length
  if argc ≠ 2 then
    (1, [Effect.cout "Usage: run_get_template <template_name>"])
  else
    let options := d.options
    let options := { options with logLevel := Utils.Logging.LogLevel.Debug }
    let template_name := argv.getD 1 ""
    let clientConfig := d.clientConfig
    let r := getTemplate sesClient template_name clientConfig
    (0, [Effect.InitAPI options] ++ r.2 ++ [Effect.ShutdownAPI options])

end AwsDoc.SES

namespace AwsDoc.ACM

open Aws.ACM.Model

/-- The client method `ACMClient::RemoveTagsFromCertificate` of a client built
from a configuration. -/
abbrev ACMClient (R : Type) :=
  ClientConfiguration → RemoveTagsFromCertificateRequest → Outcome R

/-- `AwsDoc::ACM::removeTagFromCertificate`
(remove_tag_from_certificate.cpp, lines 27-58). -/
def removeTagFromCertificate {R : Type} (acmClient : ACMClient R)
    (certificateArn tagKey : String) (clientConfiguration : ClientConfiguration) :
    Bool × List Effect :=
  let tags : List Tag := []
  let tag := Tag.new
  let tag := tag.SetKey tagKey
  let tags := tags ++ [tag]
  let request := RemoveTagsFromCertificateRequest.new
  let request := (request.WithCertificateArn certificateArn).WithTags tags
  let outcome := acmClient clientConfiguration request
  let called := [Effect.RemoveTagsFromCertificate clientConfiguration request]
  if !outcome.IsSuccess then
    (false,
      called ++ [Effect.cerr "Error: RemoveTagFromCertificate: ",
        Effect.cerr outcome.GetError.GetMessage, Effect.cerr endl])
  else
    (true,
      called ++ [Effect.cout "Success: Tag with key '", Effect.cout tagKey,
        Effect.cout "' removed from ", Effect.cout "certificate with ARN '",
        Effect.cout certificateArn, Effect.cout "'.", Effect.cout endl])

/-- The ACM program `main` (remove_tag_from_certificate.cpp, lines 72-94);
`argc` is the length of `argv`. -/
def main {R : Type} (d : Defaults) (acmClient : ACMClient R) (argv : List String) :
    Int × List Effect :=
  let argc := argv.length
  if argc ≠ 4 then
    (1, [Effect.cout "Usage: 'run_remove_tag_from_certificate <certificate_arn> <tag>'",
      Effect.cout endl])
  else
    let options := d.options
    let certificateArn := argv.getD 1 ""
    let tagKey := argv.getD 2 ""
    let clientConfig := d.clientConfig
    let r := removeTagFromCertificate acmClient certificateArn tagKey clientConfig
    (0, [Effect.InitAPI options] ++ r.2 ++ [Effect.ShutdownAPI options])

end AwsDoc.ACM

namespace AwsDoc

open Aws.SES.Model Aws.ACM.Model

/-- The `GetTemplate` request that holds the template name and nothing else. -/
def SES.requestOf (templateName : String) : GetTemplateRequest := ⟨some templateName⟩

/-- The `RemoveTagsFromCertificate` request that holds the certificate ARN and
one tag with the given key and no value. -/
def ACM.requestOf (certificateArn tagKey : String) : RemoveTagsFromCertificateRequest :=
  ⟨some certificateArn, some [⟨some tagKey, none⟩]⟩

end AwsDoc

/-! ## The IoT wrappers and the mock HTTP fixture

`iot_samples.h`, `iot_gtests.h` and the files behind them are not among the
sources; only the two tests that use them are. -/

namespace AwsDocTest

/-- Modelled from the spec: a response held by the mocked HTTP layer, missing
from the sources (`iot_gtests.h`).  It is a canned body together with whether
it stands for a successful reply. -/
structure MockResponse where
  successful : Bool
  body : String
deriving DecidableEq, Repr

/-- Modelled from the spec: the `MockHTTP` fixture loader, missing from the
sources (`iot_gtests.h`): the responses injected so far, oldest first. -/
structure MockHTTP where
  responses : List MockResponse
deriving DecidableEq, Repr

/-- Modelled from the spec: a freshly constructed `MockHTTP`, missing from the
sources; nothing is injected yet. -/
def MockHTTP.new : MockHTTP := ⟨[]⟩

/-- Modelled from the spec: `MockHTTP::addResponseWithBody`, missing from the
sources.  It "reads a canned JSON body from a file and injects it as the HTTP
layer's response"; the body is taken verbatim, and the call reports false when
the file cannot be read (`files` maps a path to its content). -/
def MockHTTP.addResponseWithBody (files : String → Option String) (m : MockHTTP)
    (fileName : String) : Bool × MockHTTP :=
  match files fileName with
  | none => (false, m)
  | some body => (true, ⟨m.responses ++ [⟨true, body⟩]⟩)

/-- Modelled from the spec: the SDK client call over the mocked HTTP layer,
missing from the sources.  The layer answers with the oldest injected
response; the outcome reports success exactly for a successful response and
carries its body. -/
def MockHTTP.call (m : MockHTTP) : Outcome String :=
  match m.responses with
  | [] => ⟨false, "", ⟨"no response"⟩⟩
  | r :: _ => if r.successful then ⟨true, r.body, ⟨""⟩⟩ else ⟨false, "", ⟨r.body⟩⟩

/-- How a gtest body ends. -/
inductive TestResult where
  | preconditionFailed
  | assertionFailed
  | passed
deriving DecidableEq, Repr

end AwsDocTest

namespace AwsDoc.IoT

/-- The request of `CreateThing`: the thing name. -/
structure CreateThingRequest where
  thingName : Option String
deriving DecidableEq, Repr

/-- Modelled from the spec: `AwsDoc::IoT::createThing`, missing from the
sources (declared in `iot_samples.h`).  It follows the common shape "build one
request object → invoke one client call → inspect a success/failure outcome →
... → return a status boolean"; the printed line is left out, the spec gives
no text for it. -/
def createThing {R : Type} (iotClient : ClientConfiguration → CreateThingRequest → Outcome R)
    (thingName : String) (clientConfiguration : ClientConfiguration) : Bool :=
  let request : CreateThingRequest := ⟨some thingName⟩
  let outcome := iotClient clientConfiguration request
  outcome.IsSuccess

/-- Modelled from the spec: `AwsDoc::IoT::describeEndpoint`, missing from the
sources (declared in `iot_samples.h`).  One client call with a request that
carries no caller-supplied field; the boolean is the outcome's success flag and
the by-reference `endpoint` receives the call's result on success and is left
alone on failure. -/
def describeEndpoint (iotClient : ClientConfiguration → Unit → Outcome String)
    (endpoint : String) (clientConfiguration : ClientConfiguration) : Bool × String :=
  let outcome := iotClient clientConfiguration ()
  if outcome.IsSuccess then (outcome.IsSuccess, outcome.result)
  else (outcome.IsSuccess, endpoint)

end AwsDoc.IoT

namespace AwsDocTest

/-- `TEST_F(IoT_GTests, create_thing_3_)` (gtest_create_thing.cpp, lines 18-26). -/
def create_thing_3_ (files : String → Option String) (s_clientConfig : ClientConfiguration) :
    TestResult :=
  let mockHttp := MockHTTP.new
  let loaded := mockHttp.addResponseWithBody files "mock_input/create_thing.json"
  let result := loaded.1
  if !result then TestResult.preconditionFailed
  else
    let thingName := "cpp_test_thing"
    let result := AwsDoc.IoT.createThing (fun _ _ => loaded.2.call) thingName s_clientConfig
    if !result then TestResult.assertionFailed else TestResult.passed

/-- `TEST_F(IoT_GTests, describeEndpoint_3_)`
(gtest_describe_endpoint.cpp, lines 18-26). -/
def describeEndpoint_3_ (files : String → Option String)
    (s_clientConfig : ClientConfiguration) : TestResult :=
  let mockHttp := MockHTTP.new
  let loaded := mockHttp.addResponseWithBody files "mock_input/describe_endpoint.json"
  let result := loaded.1
  if !result then TestResult.preconditionFailed
  else
    let endpoint := ""
    let result := (AwsDoc.IoT.describeEndpoint (fun _ _ => loaded.2.call) endpoint
      s_clientConfig).1
    if !result then TestResult.assertionFailed else TestResult.passed

end AwsDocTest

/-! ## Concrete inputs used to evaluate the programs -/

namespace Sample

/-- A default environment: logging off, region unset. -/
def defaults : Defaults := ⟨⟨Aws.Utils.Logging.LogLevel.Off⟩, ⟨""⟩⟩

/-- A configuration with a region. -/
def config : ClientConfiguration := ⟨"us-east-1"⟩

/-- An SES client whose every call succeeds. -/
def sesOk : AwsDoc.SES.SESClient Unit := fun _ _ => ⟨true, (), ⟨""⟩⟩

/-- An SES client whose every call fails with a message. -/
def sesErr : AwsDoc.SES.SESClient Unit := fun _ _ => ⟨false, (), ⟨"Template missing"⟩⟩

/-- An ACM client whose every call succeeds. -/
def acmOk : AwsDoc.ACM.ACMClient Unit := fun _ _ => ⟨true, (), ⟨""⟩⟩

/-- An ACM client whose every call fails with a message. -/
def acmErr : AwsDoc.ACM.ACMClient Unit := fun _ _ => ⟨false, (), ⟨"Access denied"⟩⟩

/-- A file system holding the two fixtures of the IoT tests. -/
def files (path : String) : Option String :=
  if path = "mock_input/create_thing.json" then some "\x7b\"thingName\":\"cpp_test_thing\"\x7d"
  else if path = "mock_input/describe_endpoint.json" then some "\x7b\"endpointAddress\":\"e\"\x7d"
  else none

end Sample

/-! ## Theorems -/

namespace AwsDoc

open Aws.SES.Model Aws.ACM.Model

/-- Unfolding of `getTemplate` on a successful outcome. -/
theorem SES.getTemplate_of_success {R : Type} (sesClient : SES.SESClient R)
    (templateName : String) (config : ClientConfiguration)
    (h : (sesClient config (SES.requestOf templateName)).IsSuccess = true) :
    SES.getTemplate sesClient templateName config =
      (true, [Effect.GetTemplate config (SES.requestOf templateName),
        Effect.cout "Successfully got template.", Effect.cout endl]) := by
  have h2 : (sesClient config (GetTemplateRequest.new.SetTemplateName templateName)).IsSuccess
      = true := h
  simp only [SES.getTemplate, h2]
  rfl

/-- Unfolding of `getTemplate` on an error outcome. -/
theorem SES.getTemplate_of_error {R : Type} (sesClient : SES.SESClient R)
    (templateName : String) (config : ClientConfiguration)
    (h : (sesClient config (SES.requestOf templateName)).IsSuccess = false) :
    SES.getTemplate sesClient templateName config =
      (false, [Effect.GetTemplate config (SES.requestOf templateName),
        Effect.cerr "Error getting template. ",
        Effect.cerr (sesClient config (SES.requestOf templateName)).GetError.GetMessage,
        Effect.cerr endl]) := by
  have h2 : (sesClient config (GetTemplateRequest.new.SetTemplateName templateName)).IsSuccess
      = false := h
  simp only [SES.getTemplate, h2]
  rfl

/-- Unfolding of `removeTagFromCertificate` on a successful outcome. -/
theorem ACM.removeTagFromCertificate_of_success {S : Type} (acmClient : ACM.ACMClient S)
    (certificateArn tagKey : String) (config : ClientConfiguration)
    (h : (acmClient config (ACM.requestOf certificateArn tagKey)).IsSuccess = true) :
    ACM.removeTagFromCertificate acmClient certificateArn tagKey config =
      (true, [Effect.RemoveTagsFromCertificate config (ACM.requestOf certificateArn tagKey),
        Effect.cout "Success: Tag with key '", Effect.cout tagKey,
        Effect.cout "' removed from ", Effect.cout "certificate with ARN '",
        Effect.cout certificateArn, Effect.cout "'.", Effect.cout endl]) := by
  have h2 : (acmClient config
      ((RemoveTagsFromCertificateRequest.new.WithCertificateArn certificateArn).WithTags
        ([] ++ [Tag.new.SetKey tagKey]))).IsSuccess = true := h
  simp only [ACM.removeTagFromCertificate, h2]
  rfl

/-- Unfolding of `removeTagFromCertificate` on an error outcome. -/
theorem ACM.removeTagFromCertificate_of_error {S : Type} (acmClient : ACM.ACMClient S)
    (certificateArn tagKey : String) (config : ClientConfiguration)
    (h : (acmClient config (ACM.requestOf certificateArn tagKey)).IsSuccess = false) :
    ACM.removeTagFromCertificate acmClient certificateArn tagKey config =
      (false, [Effect.RemoveTagsFromCertificate config (ACM.requestOf certificateArn tagKey),
        Effect.cerr "Error: RemoveTagFromCertificate: ",
        Effect.cerr (acmClient config (ACM.requestOf certificateArn tagKey)).GetError.GetMessage,
        Effect.cerr endl]) := by
  have h2 : (acmClient config
      ((RemoveTagsFromCertificateRequest.new.WithCertificateArn certificateArn).WithTags
        ([] ++ [Tag.new.SetKey tagKey]))).IsSuccess = false := h
  simp only [ACM.removeTagFromCertificate, h2]
  rfl

/-- The SES `main` on a rejected argument count. -/
theorem SES.ses_main_of_usage {R : Type} (d : Defaults) (sesClient : SES.SESClient R)
    (argv : List String) (h : argv.length ≠ 2) :
    SES.main d sesClient argv = (1, [Effect.cout "Usage: run_get_template <template_name>"]) := by
  simp [SES.main, h]

/-- The SES `main` on the accepted argument count. -/
theorem SES.ses_main_of_accepted {R : Type} (d : Defaults) (sesClient : SES.SESClient R)
    (argv : List String) (h : argv.length = 2) :
    SES.main d sesClient argv =
      (0, [Effect.InitAPI ⟨Aws.Utils.Logging.LogLevel.Debug⟩] ++
        (SES.getTemplate sesClient (argv.getD 1 "") d.clientConfig).2 ++
        [Effect.ShutdownAPI ⟨Aws.Utils.Logging.LogLevel.Debug⟩]) := by
  simp [SES.main, h]

/-- The ACM `main` on a rejected argument count. -/
theorem ACM.acm_main_of_usage {S : Type} (d : Defaults) (acmClient : ACM.ACMClient S)
    (argv : List String) (h : argv.length ≠ 4) :
    ACM.main d acmClient argv =
      (1, [Effect.cout "Usage: 'run_remove_tag_from_certificate <certificate_arn> <tag>'",
        Effect.cout endl]) := by
  simp [ACM.main, h]

/-- The ACM `main` on the accepted argument count. -/
theorem ACM.acm_main_of_accepted {S : Type} (d : Defaults) (acmClient : ACM.ACMClient S)
    (argv : List String) (h : argv.length = 4) :
    ACM.main d acmClient argv =
      (0, [Effect.InitAPI d.options] ++
        (ACM.removeTagFromCertificate acmClient (argv.getD 1 "") (argv.getD 2 "")
          d.clientConfig).2 ++ [Effect.ShutdownAPI d.options]) := by
  simp [ACM.main, h]

/-- The trace of `getTemplate` holds one client call and neither `InitAPI` nor
`ShutdownAPI`. -/
theorem SES.getTemplate_trace {R : Type} (sesClient : SES.SESClient R)
    (templateName : String) (config : ClientConfiguration) :
    (clientCalls (SES.getTemplate sesClient templateName config).2).length = 1 ∧
    ∀ e ∈ (SES.getTemplate sesClient templateName config).2,
      e.isInit = false ∧ e.isShutdown = false := by
  cases h : (sesClient config (SES.requestOf templateName)).IsSuccess
  · rw [SES.getTemplate_of_error _ _ _ h]
    simp [clientCalls, Effect.isCall, Effect.isInit, Effect.isShutdown]
  · rw [SES.getTemplate_of_success _ _ _ h]
    simp [clientCalls, Effect.isCall, Effect.isInit, Effect.isShutdown]

/-- The trace of `removeTagFromCertificate` holds one client call and neither
`InitAPI` nor `ShutdownAPI`. -/
theorem ACM.removeTagFromCertificate_trace {S : Type} (acmClient : ACM.ACMClient S)
    (certificateArn tagKey : String) (config : ClientConfiguration) :
    (clientCalls (ACM.removeTagFromCertificate acmClient certificateArn tagKey config).2).length
      = 1 ∧
    ∀ e ∈ (ACM.removeTagFromCertificate acmClient certificateArn tagKey config).2,
      e.isInit = false ∧ e.isShutdown = false := by
  cases h : (acmClient config (ACM.requestOf certificateArn tagKey)).IsSuccess
  · rw [ACM.removeTagFromCertificate_of_error _ _ _ _ h]
    simp [clientCalls, Effect.isCall, Effect.isInit, Effect.isShutdown]
  · rw [ACM.removeTagFromCertificate_of_success _ _ _ _ h]
    simp [clientCalls, Effect.isCall, Effect.isInit, Effect.isShutdown]

/-- Client calls of a trace bracketed by `InitAPI` and `ShutdownAPI`. -/
theorem clientCalls_bracket (o o2 : SDKOptions) (mid : List Effect) :
    clientCalls ([Effect.InitAPI o] ++ mid ++ [Effect.ShutdownAPI o2]) = clientCalls mid := by
  simp [clientCalls, Effect.isCall]

/-- A text followed by `endl` ends with the newline character. -/
theorem endsWithNewline_append_endl (s : String) : endsWithNewline (s ++ endl) = true := by
  simp [endsWithNewline, endl, String.singleton]

/-- A text without newline, followed by `endl`, is exactly one line. -/
theorem isOneLine_append_endl (s : String) (h : newline ∉ s.data) :
    isOneLine (s ++ endl) = true := by
  simp [isOneLine, endsWithNewline, endl, String.singleton, List.count_eq_zero_of_not_mem h]

/-- C1: `getTemplate` and `removeTagFromCertificate` return true exactly when
the outcome of their client call reports success; for a successful outcome
they return true. -/
theorem wrapper_returns_outcome_success {R S : Type} (sesClient : SES.SESClient R)
    (acmClient : ACM.ACMClient S) (templateName certificateArn tagKey : String)
    (config : ClientConfiguration) :
    ((SES.getTemplate sesClient templateName config).1 = true ↔
        (sesClient config (SES.requestOf templateName)).IsSuccess = true) ∧
    ((ACM.removeTagFromCertificate acmClient certificateArn tagKey config).1 = true ↔
        (acmClient config (ACM.requestOf certificateArn tagKey)).IsSuccess = true) := by
  constructor
  · cases h : (sesClient config (SES.requestOf templateName)).IsSuccess
    · simp [SES.getTemplate_of_error _ _ _ h]
    · simp [SES.getTemplate_of_success _ _ _ h]
  · cases h : (acmClient config (ACM.requestOf certificateArn tagKey)).IsSuccess
    · simp [ACM.removeTagFromCertificate_of_error _ _ _ _ h]
    · simp [ACM.removeTagFromCertificate_of_success _ _ _ _ h]

/-- C2: on an error outcome both wrappers return false, and what they wrote to
standard error contains the outcome's error message as a contiguous substring. -/
theorem wrapper_error_reported {R S : Type} (sesClient : SES.SESClient R)
    (acmClient : ACM.ACMClient S) (templateName certificateArn tagKey : String)
    (config : ClientConfiguration)
    (hses : (sesClient config (SES.requestOf templateName)).IsSuccess = false)
    (hacm : (acmClient config (ACM.requestOf certificateArn tagKey)).IsSuccess = false) :
    ((SES.getTemplate sesClient templateName config).1 = false ∧
      containsText (cerrText (SES.getTemplate sesClient templateName config).2)
        (sesClient config (SES.requestOf templateName)).GetError.GetMessage) ∧
    ((ACM.removeTagFromCertificate acmClient certificateArn tagKey config).1 = false ∧
      containsText (cerrText (ACM.removeTagFromCertificate acmClient certificateArn tagKey config).2)
        (acmClient config (ACM.requestOf certificateArn tagKey)).GetError.GetMessage) := by
  rw [SES.getTemplate_of_error _ _ _ hses, ACM.removeTagFromCertificate_of_error _ _ _ _ hacm]
  refine ⟨⟨rfl, ?_⟩, rfl, ?_⟩
  · exact ⟨"Error getting template. ", endl, by simp [cerrText, String.append_assoc]⟩
  · exact ⟨"Error: RemoveTagFromCertificate: ", endl, by simp [cerrText, String.append_assoc]⟩

/-- Witness of C2: failing clients at concrete arguments. -/
theorem wrapper_error_reported_witness :
    ((SES.getTemplate Sample.sesErr "welcome" Sample.config).1 = false ∧
      containsText (cerrText (SES.getTemplate Sample.sesErr "welcome" Sample.config).2)
        "Template missing") ∧
    ((ACM.removeTagFromCertificate Sample.acmErr "arn:cert" "env" Sample.config).1 = false ∧
      containsText
        (cerrText (ACM.removeTagFromCertificate Sample.acmErr "arn:cert" "env" Sample.config).2)
        "Access denied") :=
  wrapper_error_reported Sample.sesErr Sample.acmErr "welcome" "arn:cert" "env" Sample.config
    rfl rfl

/-- C3: the one request handed to the client holds the caller's identifiers
unchanged: `getTemplate` passes a request whose only field, the template name,
is `templateName`; `removeTagFromCertificate` passes a request whose
certificate ARN is `certificateArn` and whose tag list is one tag with key
`tagKey` and no value. -/
theorem request_carries_identifiers {R S : Type} (sesClient : SES.SESClient R)
    (acmClient : ACM.ACMClient S) (templateName certificateArn tagKey : String)
    (config : ClientConfiguration) :
    clientCalls (SES.getTemplate sesClient templateName config).2 =
      [Effect.GetTemplate config ⟨some templateName⟩] ∧
    clientCalls (ACM.removeTagFromCertificate acmClient certificateArn tagKey config).2 =
      [Effect.RemoveTagsFromCertificate config
        ⟨some certificateArn, some [⟨some tagKey, none⟩]⟩] := by
  constructor
  · cases h : (sesClient config (SES.requestOf templateName)).IsSuccess
    · rw [SES.getTemplate_of_error _ _ _ h]; rfl
    · rw [SES.getTemplate_of_success _ _ _ h]; rfl
  · cases h : (acmClient config (ACM.requestOf certificateArn tagKey)).IsSuccess
    · rw [ACM.removeTagFromCertificate_of_error _ _ _ _ h]; rfl
    · rw [ACM.removeTagFromCertificate_of_success _ _ _ _ h]; rfl

/-- C4: the SES `main` returns 1 whenever `argc` is not 2, for every client
and every environment, having printed the usage text and made no SDK call;
with `argc = 2` and a successful remote call it returns 0.  The two halves
are stated over independent clients, environments and argument lists, so the
usage half carries no condition on the client. -/
theorem ses_main_exit_status {U R : Type} (dUsage d : Defaults)
    (usageClient : SES.SESClient U) (sesClient : SES.SESClient R)
    (argvBad argvOk : List String) (hbad : argvBad.length ≠ 2) (hok : argvOk.length = 2)
    (hsucc : (sesClient d.clientConfig (SES.requestOf (argvOk.getD 1 ""))).IsSuccess = true) :
    ((SES.main dUsage usageClient argvBad).1 = 1 ∧
      (SES.main dUsage usageClient argvBad).2 =
        [Effect.cout "Usage: run_get_template <template_name>"] ∧
      NoSdkUse (SES.main dUsage usageClient argvBad).2) ∧
    ((SES.getTemplate sesClient (argvOk.getD 1 "") d.clientConfig).1 = true ∧
      (SES.main d sesClient argvOk).1 = 0) := by
  rw [SES.ses_main_of_usage dUsage usageClient argvBad hbad,
    SES.ses_main_of_accepted d sesClient argvOk hok, SES.getTemplate_of_success _ _ _ hsucc]
  refine ⟨⟨rfl, rfl, ?_⟩, rfl, rfl⟩
  intro e he
  simp only [List.mem_singleton] at he
  subst he
  exact ⟨rfl, rfl, rfl⟩

/-- Witness of C4: three arguments with a client that never succeeds on the
usage side, and one argument with a succeeding client on the other. -/
theorem ses_main_exit_status_witness :
    ((SES.main Sample.defaults Sample.sesErr ["run_get_template", "welcome", "extra"]).1 = 1 ∧
      (SES.main Sample.defaults Sample.sesErr ["run_get_template", "welcome", "extra"]).2 =
        [Effect.cout "Usage: run_get_template <template_name>"] ∧
      NoSdkUse
        (SES.main Sample.defaults Sample.sesErr ["run_get_template", "welcome", "extra"]).2) ∧
    ((SES.getTemplate Sample.sesOk "welcome" Sample.defaults.clientConfig).1 = true ∧
      (SES.main Sample.defaults Sample.sesOk ["run_get_template", "welcome"]).1 = 0) :=
  ses_main_exit_status Sample.defaults Sample.defaults Sample.sesErr Sample.sesOk
    ["run_get_template", "welcome", "extra"] ["run_get_template", "welcome"]
    (by decide) (by decide) rfl

/-- C5: run as its usage text documents, with a certificate ARN and a tag key
as the only two positional arguments, the ACM `main` takes the usage branch:
it returns 1 and never calls `removeTagFromCertificate`. -/
theorem acm_main_rejects_documented_usage {S : Type} (d : Defaults)
    (acmClient : ACM.ACMClient S) (certificateArn tag : String) :
    ACM.main d acmClient ["run_remove_tag_from_certificate", certificateArn, tag] =
      (1, [Effect.cout "Usage: 'run_remove_tag_from_certificate <certificate_arn> <tag>'",
        Effect.cout endl]) ∧
    clientCalls
      (ACM.main d acmClient ["run_remove_tag_from_certificate", certificateArn, tag]).2 = [] := by
  rw [ACM.acm_main_of_usage d acmClient _ (by simp)]
  exact ⟨rfl, rfl⟩

/-- C7: each wrapper issues exactly one remote client call whatever the
outcome, and so does each `main` run with its accepted argument count. -/
theorem one_remote_call {R S : Type} (d : Defaults) (sesClient : SES.SESClient R)
    (acmClient : ACM.ACMClient S) (templateName certificateArn tagKey : String)
    (config : ClientConfiguration) (argvSes argvAcm : List String)
    (hses : argvSes.length = 2) (hacm : argvAcm.length = 4) :
    (clientCalls (SES.getTemplate sesClient templateName config).2).length = 1 ∧
    (clientCalls
      (ACM.removeTagFromCertificate acmClient certificateArn tagKey config).2).length = 1 ∧
    (clientCalls (SES.main d sesClient argvSes).2).length = 1 ∧
    (clientCalls (ACM.main d acmClient argvAcm).2).length = 1 := by
  rw [SES.ses_main_of_accepted d sesClient argvSes hses,
    ACM.acm_main_of_accepted d acmClient argvAcm hacm]
  simp only [clientCalls_bracket]
  exact ⟨(SES.getTemplate_trace _ _ _).1, (ACM.removeTagFromCertificate_trace _ _ _ _).1,
    (SES.getTemplate_trace _ _ _).1, (ACM.removeTagFromCertificate_trace _ _ _ _).1⟩

/-- Witness of C7: failing clients, so a retry would show as a second call. -/
theorem one_remote_call_witness :
    (clientCalls (SES.getTemplate Sample.sesErr "welcome" Sample.config).2).length = 1 ∧
    (clientCalls
      (ACM.removeTagFromCertificate Sample.acmErr "arn:cert" "env" Sample.config).2).length
        = 1 ∧
    (clientCalls
      (SES.main Sample.defaults Sample.sesErr ["run_get_template", "welcome"]).2).length = 1 ∧
    (clientCalls
      (ACM.main Sample.defaults Sample.acmErr
        ["run_remove_tag_from_certificate", "arn:cert", "env", "us-east-1"]).2).length = 1 :=
  one_remote_call Sample.defaults Sample.sesErr Sample.acmErr "welcome" "arn:cert" "env"
    Sample.config ["run_get_template", "welcome"]
    ["run_remove_tag_from_certificate", "arn:cert", "env", "us-east-1"] (by decide) (by decide)

/-- C8: with the accepted argument count the trace of each `main` is
bracketed (one `InitAPI` first, one `ShutdownAPI` with the same options last,
the client call in between) for every client, succeeding or failing; on a
usage error the trace has no `InitAPI`, no `ShutdownAPI` and no client call. -/
theorem init_shutdown_bracket {R S : Type} (d : Defaults) (sesClient : SES.SESClient R)
    (acmClient : ACM.ACMClient S) (argvSes argvAcm usageSes usageAcm : List String)
    (hses : argvSes.length = 2) (hacm : argvAcm.length = 4)
    (huses : usageSes.length ≠ 2) (huacm : usageAcm.length ≠ 4) :
    Bracketed (SES.main d sesClient argvSes).2 ∧
    Bracketed (ACM.main d acmClient argvAcm).2 ∧
    NoSdkUse (SES.main d sesClient usageSes).2 ∧
    NoSdkUse (ACM.main d acmClient usageAcm).2 := by
  rw [SES.ses_main_of_accepted d sesClient argvSes hses,
    ACM.acm_main_of_accepted d acmClient argvAcm hacm,
    SES.ses_main_of_usage d sesClient usageSes huses,
    ACM.acm_main_of_usage d acmClient usageAcm huacm]
  refine ⟨⟨_, _, rfl, (SES.getTemplate_trace _ _ _).2, (SES.getTemplate_trace _ _ _).1⟩,
    ⟨_, _, rfl, (ACM.removeTagFromCertificate_trace _ _ _ _).2,
      (ACM.removeTagFromCertificate_trace _ _ _ _).1⟩, ?_, ?_⟩
  · intro e he
    simp only [List.mem_singleton] at he
    subst he
    exact ⟨rfl, rfl, rfl⟩
  · intro e he
    simp only [List.mem_cons, List.mem_singleton, List.not_mem_nil, or_false] at he
    rcases he with he | he <;> subst he <;> exact ⟨rfl, rfl, rfl⟩

/-- Witness of C8: a succeeding SES client, a failing ACM client, and two
rejected argument lists. -/
theorem init_shutdown_bracket_witness :
    Bracketed (SES.main Sample.defaults Sample.sesOk ["run_get_template", "welcome"]).2 ∧
    Bracketed (ACM.main Sample.defaults Sample.acmErr
      ["run_remove_tag_from_certificate", "arn:cert", "env", "us-east-1"]).2 ∧
    NoSdkUse (SES.main Sample.defaults Sample.sesOk ["run_get_template"]).2 ∧
    NoSdkUse (ACM.main Sample.defaults Sample.acmErr
      ["run_remove_tag_from_certificate", "arn:cert", "env"]).2 :=
  init_shutdown_bracket Sample.defaults Sample.sesOk Sample.acmErr
    ["run_get_template", "welcome"]
    ["run_remove_tag_from_certificate", "arn:cert", "env", "us-east-1"]
    ["run_get_template"] ["run_remove_tag_from_certificate", "arn:cert", "env"]
    (by decide) (by decide) (by decide) (by decide)

/-- C10: with the accepted argument count (`argc = 2` for SES, `argc = 4` for
ACM) each `main` returns 0 for every client outcome; the wrapper's boolean
does not reach the exit status. -/
theorem main_exit_ignores_outcome {R S : Type} (d : Defaults) (sesClient : SES.SESClient R)
    (acmClient : ACM.ACMClient S) (argvSes argvAcm : List String)
    (hses : argvSes.length = 2) (hacm : argvAcm.length = 4) :
    (SES.main d sesClient argvSes).1 = 0 ∧ (ACM.main d acmClient argvAcm).1 = 0 := by
  rw [SES.ses_main_of_accepted d sesClient argvSes hses,
    ACM.acm_main_of_accepted d acmClient argvAcm hacm]
  exact ⟨rfl, rfl⟩

/-- Witness of C10: both wrappers return false on the failing clients, and
both programs still return 0. -/
theorem main_exit_ignores_outcome_witness :
    ((SES.getTemplate Sample.sesErr "welcome" Sample.defaults.clientConfig).1 = false ∧
      (ACM.removeTagFromCertificate Sample.acmErr "arn:cert" "env"
        Sample.defaults.clientConfig).1 = false) ∧
    (SES.main Sample.defaults Sample.sesErr ["run_get_template", "welcome"]).1 = 0 ∧
    (ACM.main Sample.defaults Sample.acmErr
      ["run_remove_tag_from_certificate", "arn:cert", "env", "us-east-1"]).1 = 0 :=
  ⟨⟨rfl, rfl⟩, main_exit_ignores_outcome Sample.defaults Sample.sesErr Sample.acmErr
    ["run_get_template", "welcome"]
    ["run_remove_tag_from_certificate", "arn:cert", "env", "us-east-1"]
    (by decide) (by decide)⟩

/-- C6, as stated, fails: a succeeding `removeTagFromCertificate` whose tag key
holds a newline writes two lines to standard output. -/
theorem one_line_fails_for_tag_key_with_newline :
    (ACM.removeTagFromCertificate Sample.acmOk "arn:cert" "a\nb" Sample.config).1 = true ∧
    isOneLine (coutText
      (ACM.removeTagFromCertificate Sample.acmOk "arn:cert" "a\nb" Sample.config).2) = false ∧
    (coutText
      (ACM.removeTagFromCertificate Sample.acmOk "arn:cert" "a\nb" Sample.config).2).data.count
        newline = 2 := by
  refine ⟨rfl, ?_, ?_⟩ <;> decide

/-- C6, amended: every invocation writes to one stream only, a text that ends
in a newline: standard output on success (nothing on standard error), standard
error on failure (nothing on standard output).  The success text of
`getTemplate` is always exactly one line; every other text is exactly one line
when the strings copied into it (tag key and certificate ARN, or the error
message) hold no newline. -/
theorem output_one_stream_one_line {R S : Type} (sesClient : SES.SESClient R)
    (acmClient : ACM.ACMClient S) (templateName certificateArn tagKey : String)
    (config : ClientConfiguration) :
    ((sesClient config (SES.requestOf templateName)).IsSuccess = true →
      cerrText (SES.getTemplate sesClient templateName config).2 = "" ∧
      isOneLine (coutText (SES.getTemplate sesClient templateName config).2) = true) ∧
    ((sesClient config (SES.requestOf templateName)).IsSuccess = false →
      coutText (SES.getTemplate sesClient templateName config).2 = "" ∧
      endsWithNewline (cerrText (SES.getTemplate sesClient templateName config).2) = true ∧
      (newline ∉ (sesClient config (SES.requestOf templateName)).GetError.GetMessage.data →
        isOneLine (cerrText (SES.getTemplate sesClient templateName config).2) = true)) ∧
    ((acmClient config (ACM.requestOf certificateArn tagKey)).IsSuccess = true →
      cerrText (ACM.removeTagFromCertificate acmClient certificateArn tagKey config).2 = "" ∧
      endsWithNewline
        (coutText (ACM.removeTagFromCertificate acmClient certificateArn tagKey config).2)
          = true ∧
      (newline ∉ tagKey.data → newline ∉ certificateArn.data →
        isOneLine
          (coutText (ACM.removeTagFromCertificate acmClient certificateArn tagKey config).2)
            = true)) ∧
    ((acmClient config (ACM.requestOf certificateArn tagKey)).IsSuccess = false →
      coutText (ACM.removeTagFromCertificate acmClient certificateArn tagKey config).2 = "" ∧
      endsWithNewline
        (cerrText (ACM.removeTagFromCertificate acmClient certificateArn tagKey config).2)
          = true ∧
      (newline ∉
          (acmClient config (ACM.requestOf certificateArn tagKey)).GetError.GetMessage.data →
        isOneLine
          (cerrText (ACM.removeTagFromCertificate acmClient certificateArn tagKey config).2)
            = true)) := by
  refine ⟨fun h => ?_, fun h => ?_, fun h => ?_, fun h => ?_⟩
  · rw [SES.getTemplate_of_success _ _ _ h]
    refine ⟨rfl, ?_⟩
    show isOneLine ("Successfully got template." ++ (endl ++ "")) = true
    decide
  · rw [SES.getTemplate_of_error _ _ _ h]
    have e : cerrText [Effect.GetTemplate config (SES.requestOf templateName),
        Effect.cerr "Error getting template. ",
        Effect.cerr (sesClient config (SES.requestOf templateName)).GetError.GetMessage,
        Effect.cerr endl] =
        ("Error getting template. " ++
          (sesClient config (SES.requestOf templateName)).GetError.GetMessage) ++ endl := by
      simp only [cerrText, String.append_assoc, String.append_empty]
    rw [e]
    refine ⟨rfl, endsWithNewline_append_endl _, fun hm => ?_⟩
    apply isOneLine_append_endl
    simp only [String.data_append, List.mem_append, not_or]
    exact ⟨by decide, hm⟩
  · rw [ACM.removeTagFromCertificate_of_success _ _ _ _ h]
    have e : coutText [Effect.RemoveTagsFromCertificate config
          (ACM.requestOf certificateArn tagKey),
        Effect.cout "Success: Tag with key '", Effect.cout tagKey,
        Effect.cout "' removed from ", Effect.cout "certificate with ARN '",
        Effect.cout certificateArn, Effect.cout "'.", Effect.cout endl] =
        ("Success: Tag with key '" ++ tagKey ++ "' removed from " ++
          "certificate with ARN '" ++ certificateArn ++ "'.") ++ endl := by
      simp only [coutText, String.append_assoc, String.append_empty]
    rw [e]
    refine ⟨rfl, endsWithNewline_append_endl _, fun hk ha => ?_⟩
    apply isOneLine_append_endl
    simp only [String.data_append, List.mem_append, not_or]
    exact ⟨⟨⟨⟨⟨by decide, hk⟩, by decide⟩, by decide⟩, ha⟩, by decide⟩
  · rw [ACM.removeTagFromCertificate_of_error _ _ _ _ h]
    have e : cerrText [Effect.RemoveTagsFromCertificate config
          (ACM.requestOf certificateArn tagKey),
        Effect.cerr "Error: RemoveTagFromCertificate: ",
        Effect.cerr (acmClient config (ACM.requestOf certificateArn tagKey)).GetError.GetMessage,
        Effect.cerr endl] =
        ("Error: RemoveTagFromCertificate: " ++
          (acmClient config (ACM.requestOf certificateArn tagKey)).GetError.GetMessage)
            ++ endl := by
      simp only [cerrText, String.append_assoc, String.append_empty]
    rw [e]
    refine ⟨rfl, endsWithNewline_append_endl _, fun hm => ?_⟩
    apply isOneLine_append_endl
    simp only [String.data_append, List.mem_append, not_or]
    exact ⟨by decide, hm⟩

/-- Witness of C6, amended: a failing `getTemplate` and a succeeding
`removeTagFromCertificate` on strings without newline. -/
theorem output_one_stream_one_line_witness :
    (coutText (SES.getTemplate Sample.sesErr "welcome" Sample.config).2 = "" ∧
      isOneLine (cerrText (SES.getTemplate Sample.sesErr "welcome" Sample.config).2) = true) ∧
    (cerrText
        (ACM.removeTagFromCertificate Sample.acmOk "arn:cert" "env" Sample.config).2 = "" ∧
      isOneLine (coutText
        (ACM.removeTagFromCertificate Sample.acmOk "arn:cert" "env" Sample.config).2) = true) :=
  have h := output_one_stream_one_line Sample.sesErr Sample.acmOk "welcome" "arn:cert" "env"
    Sample.config
  ⟨⟨(h.2.1 rfl).1, (h.2.1 rfl).2.2 (by decide)⟩,
    ⟨(h.2.2.1 rfl).1, (h.2.2.1 rfl).2.2 (by decide) (by decide)⟩⟩

/-- C9: once the mocked HTTP layer has been loaded with a response body,
`createThing` returns true for every thing name and `describeEndpoint` returns
true for an empty endpoint string; the two tests pass. -/
theorem iot_wrappers_true_on_mocked_success (files : String → Option String)
    (thingName : String) (config : ClientConfiguration)
    (hthing : (AwsDocTest.MockHTTP.new.addResponseWithBody files
      "mock_input/create_thing.json").1 = true)
    (hendpoint : (AwsDocTest.MockHTTP.new.addResponseWithBody files
      "mock_input/describe_endpoint.json").1 = true) :
    IoT.createThing
      (fun _ (_ : IoT.CreateThingRequest) =>
        (AwsDocTest.MockHTTP.new.addResponseWithBody files
          "mock_input/create_thing.json").2.call) thingName config = true ∧
    (IoT.describeEndpoint
      (fun _ _ =>
        (AwsDocTest.MockHTTP.new.addResponseWithBody files
          "mock_input/describe_endpoint.json").2.call) "" config).1 = true ∧
    AwsDocTest.create_thing_3_ files config = AwsDocTest.TestResult.passed ∧
    AwsDocTest.describeEndpoint_3_ files config = AwsDocTest.TestResult.passed := by
  simp only [AwsDocTest.MockHTTP.addResponseWithBody] at hthing hendpoint
  cases h1 : files "mock_input/create_thing.json" with
  | none => simp [h1] at hthing
  | some b1 =>
    cases h2 : files "mock_input/describe_endpoint.json" with
    | none => simp [h2] at hendpoint
    | some b2 =>
      simp [IoT.createThing, IoT.describeEndpoint, AwsDocTest.create_thing_3_,
        AwsDocTest.describeEndpoint_3_, AwsDocTest.MockHTTP.addResponseWithBody,
        AwsDocTest.MockHTTP.call, AwsDocTest.MockHTTP.new, Outcome.IsSuccess, h1, h2]

/-- Witness of C9: the fixtures exist and the thing name is the test's. -/
theorem iot_wrappers_true_on_mocked_success_witness :
    IoT.createThing
      (fun _ (_ : IoT.CreateThingRequest) =>
        (AwsDocTest.MockHTTP.new.addResponseWithBody Sample.files
          "mock_input/create_thing.json").2.call) "cpp_test_thing" Sample.config = true ∧
    (IoT.describeEndpoint
      (fun _ _ =>
        (AwsDocTest.MockHTTP.new.addResponseWithBody Sample.files
          "mock_input/describe_endpoint.json").2.call) "" Sample.config).1 = true ∧
    AwsDocTest.create_thing_3_ Sample.files Sample.config = AwsDocTest.TestResult.passed ∧
    AwsDocTest.describeEndpoint_3_ Sample.files Sample.config = AwsDocTest.TestResult.passed :=
  iot_wrappers_true_on_mocked_success Sample.files "cpp_test_thing" Sample.config
    (by decide) (by decide)

end AwsDoc
